import Mathlib

/-!
# Key-schema and fan-out query patterns of the single-table workshop scripts

This file embeds, in Lean, the key-construction, shard fan-out and query
logic of the repository's example scripts (`src/examples/*.py`) and proves
or refutes the specification's claims about them.

Conventions of the embedding:
* Python f-strings over `str` become Lean `String` concatenations.
* A stored record (a DynamoDB item) becomes an `Item`: its partition key,
  its sort key, and the remaining attributes as an association list.
* The managed storage service is external to the repository; its range
  query (partition selection, sort-key ordering, `ScanIndexForward`,
  `Limit`) is modelled from the spec's storage capability, section 6.
* String comparison is lexicographic on the character sequence, exactly as
  Python and the storage service compare keys; we state it on `String.data`
  so that concrete comparisons evaluate inside the kernel.
* `random.choice(SHARDS)` is embedded as an explicit function of the drawn
  random value, making the dependence on the RNG draw visible.
-/

namespace Workshop

/-- A stored record: partition key, sort key, and the remaining attributes
of the Python item dict as an association list. -/
structure Item where
  pk : String
  sk : String
  attrs : List (String × String)
deriving DecidableEq, Repr

/-- Ascending sort-key order (lexicographic on characters, as Python and
the storage service compare key strings). -/
def skLE (a b : Item) : Prop := a.sk.data ≤ b.sk.data

/-- Descending sort-key order. -/
def skGE (a b : Item) : Prop := b.sk.data ≤ a.sk.data

/-- Strictly descending sort-key order. -/
def skGT (a b : Item) : Prop := b.sk.data < a.sk.data

instance : DecidableRel skLE := fun a b => inferInstanceAs (Decidable (a.sk.data ≤ b.sk.data))

instance : DecidableRel skGE := fun a b => inferInstanceAs (Decidable (b.sk.data ≤ a.sk.data))

instance : DecidableRel skGT := fun a b => inferInstanceAs (Decidable (b.sk.data < a.sk.data))

instance : IsTotal Item skLE := ⟨fun a b => le_total a.sk.data b.sk.data⟩

instance : IsTotal Item skGE := ⟨fun a b => le_total b.sk.data a.sk.data⟩

instance : IsTrans Item skLE := ⟨fun _ _ _ h h' => le_trans h h'⟩

instance : IsTrans Item skGE := ⟨fun _ _ _ h h' => le_trans h' h⟩

instance : IsAntisymm Item skGT :=
  ⟨fun _ _ h h' => absurd h (lt_asymm h')⟩

/-- Sort a list of items ascending by sort key (Python `sorted(key=SK)`). -/
def sortAsc (l : List Item) : List Item := List.insertionSort skLE l

/-- Sort a list of items descending by sort key
(Python `sorted(key=SK, reverse=True)`). -/
def sortDesc (l : List Item) : List Item := List.insertionSort skGE l

/-- Modelled from the spec: the storage capability's
`rangeQuery(partitionKey, sortKeyRange, direction, limit)` of section 6 —
the managed store's `Query` returns the items of one partition ordered by
sort key.  Ascending full read (`ScanIndexForward=True`, no limit). -/
def rangeQueryAsc (table : List Item) (pk : String) : List Item :=
  sortAsc (table.filter (fun it => decide (it.pk = pk)))

/-- Modelled from the spec: the storage capability's range query of
section 6, descending with a per-partition item ceiling
(`ScanIndexForward=False, Limit=limit`). -/
def rangeQueryDesc (table : List Item) (pk : String) (limit : Nat) : List Item :=
  (sortDesc (table.filter (fun it => decide (it.pk = pk)))).take limit

/-! ### Splitting a key string at the `#` delimiter -/

/-- Split a character sequence at every `#` delimiter (the inverse
direction of the scripts' f-string key construction). -/
def splitHash : List Char → List (List Char)
  | [] => [[]]
  | c :: cs =>
    if c = '#' then [] :: splitHash cs
    else (c :: (splitHash cs).headI) :: (splitHash cs).tail

theorem splitHash_noDelim : ∀ w : List Char, '#' ∉ w → splitHash w = [w] := by
  intro w
  induction w with
  | nil => intro _; rfl
  | cons c cs ih =>
    intro h
    have hc : c ≠ '#' := fun hc => h (hc ▸ List.mem_cons_self c cs)
    have hcs : '#' ∉ cs := fun hm => h (List.mem_cons_of_mem c hm)
    simp [splitHash, hc, ih hcs, List.headI]

theorem splitHash_delim : ∀ w rest : List Char, '#' ∉ w →
    splitHash (w ++ '#' :: rest) = w :: splitHash rest := by
  intro w
  induction w with
  | nil => intro rest _; simp [splitHash]
  | cons c cs ih =>
    intro rest h
    have hc : c ≠ '#' := fun hc => h (hc ▸ List.mem_cons_self c cs)
    have hcs : '#' ∉ cs := fun hm => h (List.mem_cons_of_mem c hm)
    simp [splitHash, hc, ih rest hcs, List.headI]

theorem string_data_inj {a b : String} (h : a.data = b.data) : a = b := by
  cases a; cases b; exact congrArg String.mk h

/-- A string component is a valid key component when it is nonempty and
contains no `#` delimiter (spec, section 4.1). -/
def validComponent (s : String) : Prop := s ≠ "" ∧ '#' ∉ s.data

instance : DecidablePred validComponent := fun s =>
  inferInstanceAs (Decidable (s ≠ "" ∧ '#' ∉ s.data))

theorem string_mk_data (a : String) : String.mk a.data = a := by
  cases a; rfl

/-! ### Key builders of `section1_fundamentals.py` (lines 11-13) -/

/-- Source: `USER_PK = lambda u: f"USER#{u}"`. -/
def USER_PK (u : String) : String := "USER#" ++ u

/-- Source: `PROFILE_SK = lambda u: f"PROFILE#{u}"`. -/
def PROFILE_SK (u : String) : String := "PROFILE#" ++ u

/-- Source: `ORDER_SK = lambda ymd, oid: f"ORDER#{ymd}#{oid}"`. -/
def ORDER_SK (ymd oid : String) : String := "ORDER#" ++ ymd ++ "#" ++ oid

/-! ### Key builders and seeded items of `section4_intro_seed.py` -/

/-- Source: `PK = lambda uid: f"TENANT#{TENANT}#USER#{uid}"` (line 20); the tenant
is the script's `TENANT_ID` configuration value, default `t-037`. -/
def introPK (tenant uid : String) : String := "TENANT#" ++ tenant ++ "#USER#" ++ uid

/-- Source: `SKP = lambda uid: f"PROFILE#{uid}"` (line 21). -/
def introSKP (uid : String) : String := "PROFILE#" ++ uid

/-- Source: `SKO = lambda d, oid: f"ORDER#{d}#{oid}"` (line 22). -/
def introSKO (d oid : String) : String := "ORDER#" ++ d ++ "#" ++ oid

/-- The tenant-scoped status GSI partition key written on the order items,
`f"TENANT#{TENANT}#STATUS#..."` (lines 42 and 53), and queried by
`section4_gsi_status_scoped.py` (line 20). -/
def gsi1StatusPK (tenant status : String) : String :=
  "TENANT#" ++ tenant ++ "#STATUS#" ++ status

/-- The global status GSI partition key queried by
`section4_gsi_status_global.py` (line 19): `STATUS#PENDING`, carrying no
tenant component. -/
def gsi2GlobalStatusPK : String := "STATUS#PENDING"

/-- The user profile item seeded by `section4_intro_seed.py` (lines 26-33). -/
def profileItemU1 : Item :=
  ⟨introPK "t-037" "u1", introSKP "u1", [("type", "USER"), ("email", "u1@example.org")]⟩

/-- Order `o1` seeded by `section4_intro_seed.py` (lines 35-45). -/
def orderItemO1 : Item :=
  ⟨introPK "t-037" "u1", introSKO "20250928" "o1",
    [("type", "ORDER"), ("status", "PENDING"),
     ("GSI1PK", gsi1StatusPK "t-037" "PENDING"), ("GSI1SK", "20250928#o1")]⟩

/-- Order `o2` seeded by `section4_intro_seed.py` (lines 47-56). -/
def orderItemO2 : Item :=
  ⟨introPK "t-037" "u1", introSKO "20250929" "o2",
    [("type", "ORDER"), ("status", "SHIPPED"),
     ("GSI1PK", gsi1StatusPK "t-037" "SHIPPED"), ("GSI1SK", "20250929#o2")]⟩

/-- The three items written by the batch writer of `section4_intro_seed.py`. -/
def introSeedTable : List Item := [profileItemU1, orderItemO1, orderItemO2]

/-! ### Sharding (`section3_sharding.py`, `section4_tenant_sharding.py`) -/

/-- Source: `SHARDS = ["S0", "S1", "S2", "S3"]` (section3 line 11, section4 line 15). -/
def SHARDS : List String := ["S0", "S1", "S2", "S3"]

/-- Source: `random.choice(SHARDS)` (section3 line 22, section4 line 27), embedded
as an explicit function of the RNG value `r` consumed by the call: the
chosen shard is determined by the draw, not by any logical identifier. -/
def randomShardChoice (r : Nat) : String := SHARDS.getD (r % 4) "S0"

/-- Source: `USER_ID = "hotuser"` (section3 line 10). -/
def USER_ID : String := "hotuser"

/-- Source: `PK = lambda s: f"USER#{USER_ID}#{s}"` (section3 line 16), with the
logical (hot) user id as a parameter. -/
def s3ShardPK (lid s : String) : String := "USER#" ++ lid ++ "#" ++ s

/-- Source: `PK = lambda s: f"TENANT#{TENANT}#USER#hot#{s}"` (section4 line 20). -/
def s4ShardPK (tenant s : String) : String := "TENANT#" ++ tenant ++ "#USER#hot#" ++ s

/-- Python `f"{n:0wd}"`: decimal rendering of `n` left-padded with zeros to
width `w`. -/
def padNum (w n : Nat) : String :=
  String.mk (List.replicate (w - (toString n).length) '0' ++ (toString n).data)

/-- Source: `SK = lambda ts, n: f"EVENT#{ts:010d}#{n:06d}"` (section3 line 17,
section4 line 21). -/
def eventSK (ts n : Nat) : String := "EVENT#" ++ padNum 10 ts ++ "#" ++ padNum 6 n

/-- The shard partition keys the section3 fan-out read visits, in order:
`[PK(s) for s in SHARDS]`. -/
def enumerateShardKeysS3 (lid : String) : List String := SHARDS.map (s3ShardPK lid)

/-- The shard partition keys the section4 fan-out read visits, in order. -/
def enumerateShardKeysS4 (tenant : String) : List String := SHARDS.map (s4ShardPK tenant)

/-- The write phase of `section3_sharding.py` (lines 20-30): 120 events;
event `n` goes to the shard selected by the RNG value `draw n` consumed by
the `n`-th `random.choice`. -/
def writeEventsS3 (draw : Nat → Nat) : List Item :=
  (List.range 120).map fun n =>
    ⟨s3ShardPK USER_ID (randomShardChoice (draw n)), eventSK n n,
      [("type", "EVENT"), ("n", toString n), ("shard", randomShardChoice (draw n))]⟩

/-- The read phase of `section3_sharding.py` (lines 33-38): for each shard
a descending query with `Limit=50`, results extended in shard order. -/
def fanoutReadS3 (table : List Item) : List Item :=
  (SHARDS.map fun s => rangeQueryDesc table (s3ShardPK USER_ID s) 50).flatten

/-- How many of the 120 events the write phase sends to shard `s`. -/
def writtenCount (draw : Nat → Nat) (s : String) : Nat :=
  (List.range 120).countP fun n => decide (randomShardChoice (draw n) = s)

/-- The merge performed by `section3_sharding.py` (line 44): the
per-partition results are concatenated in shard order and then re-sorted
descending by sort key (`sorted(items, key=lambda x: x["SK"], reverse=True)`). -/
def mergeS3 (parts : List (List Item)) : List Item := sortDesc parts.flatten

/-- The merge performed by `section4_tenant_sharding.py` (lines 39-46):
`items.extend(shard_items)` only — plain concatenation in shard order,
with no global re-sort. -/
def mergeS4 (parts : List (List Item)) : List Item := parts.flatten

/-! ### `section4_cross_tenant_attempt.py` -/

/-- A `botocore` `ClientError` as far as the script inspects it. -/
structure ClientErr where
  code : String
  message : String
deriving DecidableEq, Repr

/-- The two printed outcomes of `section4_cross_tenant_attempt.py`. -/
inductive AttemptOutcome where
  | securityIssue (item : Option Item)
  | securityWorking (code : String)
deriving DecidableEq, Repr

/-- Source: `OTHER_TENANT_ID`, default `t-999` (line 14). -/
def OTHER_TENANT : String := "t-999"

/-- The caller's authenticated tenant context in the workshop scenario
(`TENANT_ID`, default `t-037`). -/
def AUTH_TENANT : String := "t-037"

/-- The foreign-tenant primary key the script reads (lines 20-22). -/
def crossTenantKey : String × String :=
  ("TENANT#" ++ OTHER_TENANT ++ "#USER#u1", "PROFILE#u1")

/-- Source: `section4_cross_tenant_attempt.py` (lines 17-31) over an injected
storage client: the script calls `get_item` on the foreign tenant's key
unconditionally and classifies the outcome by whether the storage service
raised a `ClientError`.  The second component records the storage calls the
script issues, in order. -/
def crossTenantAttempt (client : String × String → Except ClientErr (Option Item)) :
    AttemptOutcome × List (String × String) :=
  match client crossTenantKey with
  | .ok it => (.securityIssue it, [crossTenantKey])
  | .error e => (.securityWorking e.code, [crossTenantKey])

/-! ### Fan-out reads over a fallible storage client -/

/-- Error classes of a failed partition read (spec, section 7). -/
inductive QueryErr where
  | throttling
  | accessDenied
  | other (code : String)
deriving DecidableEq, Repr

/-- The fan-out read loop of `section4_tenant_sharding.py` (lines 39-46)
and `section3_sharding.py` (lines 33-38) over a fallible storage client:
the loop queries the shards sequentially and has no exception handler, so
the first raised client error aborts the whole read and every already
collected item is discarded. -/
def fanoutReadFallible (client : String → Except QueryErr (List Item)) :
    List String → Except QueryErr (List Item)
  | [] => .ok []
  | s :: rest =>
    match client s with
    | .error e => .error e
    | .ok l =>
      match fanoutReadFallible client rest with
      | .error e => .error e
      | .ok ls => .ok (l ++ ls)

/-! ### Primary-key codec (spec, section 4.1) -/

/-- The partition key of `encodePrimaryKey(tenant, entityType, entityId)`:
the source's `PK = lambda uid: f"TENANT#{TENANT}#USER#{uid}"`
(section4_intro_seed.py line 20) with the fixed `USER` tag generalized to
the entity-type argument of the spec's contract. -/
def encodePrimaryKeyPK (tenant entityType entityId : String) : String :=
  "TENANT#" ++ tenant ++ "#" ++ entityType ++ "#" ++ entityId

/-- The composite key of `encodePrimaryKey`: the partition key above paired
with the profile sort key `f"PROFILE#{uid}"` (section4_intro_seed.py
line 21). -/
def encodePrimaryKey (tenant entityType entityId : String) : String × String :=
  (encodePrimaryKeyPK tenant entityType entityId, "PROFILE#" ++ entityId)

/-- Modelled from the spec: "Decoding functions invert encoding for
display/testing" (section 4.1) — no decoder exists in `src/`.  Splits the
partition key at the `#` delimiter and recovers the semantic components. -/
def decodePrimaryKey (pk : String) : Option (String × String × String) :=
  match splitHash pk.data with
  | [tag, t, et, id] =>
    if tag = "TENANT".data then some (String.mk t, String.mk et, String.mk id) else none
  | _ => none

/-- The leading-tenant reading of a partition key: the tenant id carried by
the key's leading `TENANT#<id>` tokens, if any. -/
def leadingTenant (pk : String) : Option String :=
  match splitHash pk.data with
  | tag :: t :: _ => if tag = "TENANT".data then some (String.mk t) else none
  | _ => none

/-! ### Shared helper lemmas -/

theorem string_append_left_cancel {p a b : String} (h : p ++ a = p ++ b) : a = b := by
  have hd := congrArg String.data h
  simp only [String.data_append] at hd
  exact string_data_inj (List.append_cancel_left hd)

theorem randomShardChoice_mem (r : Nat) : randomShardChoice r ∈ SHARDS := by
  have h4 : r % 4 < 4 := Nat.mod_lt _ (by decide)
  have hc : r % 4 = 0 ∨ r % 4 = 1 ∨ r % 4 = 2 ∨ r % 4 = 3 := by omega
  unfold randomShardChoice
  rcases hc with h | h | h | h <;> rw [h] <;> decide

theorem s4ShardPK_inj (tenant : String) {a b : String}
    (h : s4ShardPK tenant a = s4ShardPK tenant b) : a = b := by
  unfold s4ShardPK at h
  exact string_append_left_cancel h

theorem s3ShardPK_inj (lid : String) {a b : String}
    (h : s3ShardPK lid a = s3ShardPK lid b) : a = b := by
  unfold s3ShardPK at h
  exact string_append_left_cancel h

theorem leadingTenant_build (tenant rest : String) (ht : '#' ∉ tenant.data) :
    leadingTenant ("TENANT#" ++ tenant ++ "#" ++ rest) = some tenant := by
  unfold leadingTenant
  have hd : ("TENANT#" ++ tenant ++ "#" ++ rest).data
      = "TENANT".data ++ '#' :: (tenant.data ++ '#' :: rest.data) := by
    simp [String.data_append]
  rw [hd, splitHash_delim _ _ (by decide), splitHash_delim _ _ ht]
  simp [string_mk_data]

/-! ## The claims -/

/-- Claim C2, counterexample.  The claim states that shard assignment is a
deterministic function of the logical id (a hash of the logical id modulo
the shard count, not a random choice), so that any two calls with the same
inputs yield the same shard index.  In the source the shard is chosen by
`random.choice(SHARDS)` (section3_sharding.py line 22,
section4_tenant_sharding.py line 27): two calls with identical inputs (the
same logical id `hotuser`, the same shard count 4) but consecutive RNG
draws 0 and 1 select different shards, refuting determinism in the claimed
inputs. -/
theorem c2_cex :
    randomShardChoice 0 = "S0" ∧ randomShardChoice 1 = "S1" ∧
      randomShardChoice 0 ≠ randomShardChoice 1 := by decide

/-- Claim C2, amended.  Shard assignment in the scripts is
`random.choice(SHARDS)`: it is a deterministic function of the consumed
RNG draw alone — two calls seeing the same draw (modulo the shard count 4)
pick the same shard — and never of the logical id, and every chosen shard
is one of the 4 configured shard labels. -/
theorem c2_thm :
    (∀ r₁ r₂ : Nat, r₁ % 4 = r₂ % 4 → randomShardChoice r₁ = randomShardChoice r₂) ∧
      ∀ r : Nat, randomShardChoice r ∈ SHARDS := by
  constructor
  · intro r₁ r₂ h
    unfold randomShardChoice
    rw [h]
  · exact randomShardChoice_mem

/-- Claim C2, witness for the amended theorem at draws 0 and 4. -/
theorem c2_wit :
    (0 % 4 = 4 % 4) ∧ randomShardChoice 0 = randomShardChoice 4 ∧
      randomShardChoice 0 ∈ SHARDS :=
  ⟨by decide, c2_thm.1 0 4 (by decide), c2_thm.2 0⟩

/-- Claim C5, counterexample.  The claim asserts the ascending query on
partition `TENANT#t-037#USER#u1` returns the PROFILE item before the ORDER
item.  Evaluating the seeded table of `section4_intro_seed.py`: the
ascending result is `[ORDER o1, ORDER o2, PROFILE]` — the ORDER items come
first, because `"O" < "P"` lexicographically — so the PROFILE item is not
before the ORDER item. -/
theorem c5_cex :
    rangeQueryAsc introSeedTable (introPK "t-037" "u1")
        = [orderItemO1, orderItemO2, profileItemU1] ∧
      (rangeQueryAsc introSeedTable (introPK "t-037" "u1")).indexOf orderItemO1
        < (rangeQueryAsc introSeedTable (introPK "t-037" "u1")).indexOf profileItemU1 := by
  decide

/-- Claim C5, amended.  Encoding the primary key for tenant `t-037`,
entity `USER`, id `u1` yields partition key `TENANT#t-037#USER#u1`;
encoding the child order key with date `20250928` and id `o1` yields sort
key `ORDER#20250928#o1`; a query on that partition key with ascending sort
order returns both the profile item and the order item in a sequence
ordered ascending by sort key, with the ORDER item before the PROFILE item
(lexical order is enforced: `"O" < "P"`). -/
theorem c5_thm :
    introPK "t-037" "u1" = "TENANT#t-037#USER#u1" ∧
      introSKO "20250928" "o1" = "ORDER#20250928#o1" ∧
      profileItemU1 ∈ rangeQueryAsc introSeedTable (introPK "t-037" "u1") ∧
      orderItemO1 ∈ rangeQueryAsc introSeedTable (introPK "t-037" "u1") ∧
      List.Sorted skLE (rangeQueryAsc introSeedTable (introPK "t-037" "u1")) ∧
      (rangeQueryAsc introSeedTable (introPK "t-037" "u1")).indexOf orderItemO1
        < (rangeQueryAsc introSeedTable (introPK "t-037" "u1")).indexOf profileItemU1 := by
  decide

/-- Claim C8, counterexample.  The claim states that key encoding fails
with `InvalidIdentifier` when a component is empty or contains the `#`
delimiter.  The source encoders are plain f-strings with no validation:
an id containing `#` is accepted and produces a key, an empty component is
accepted and produces a key, and two distinct component tuples collide on
the very same sort key. -/
theorem c8_cex :
    ORDER_SK "20250928" "o1#x" = ORDER_SK "20250928#o1" "x" ∧
      (("20250928", "o1#x") : String × String) ≠ ("20250928#o1", "x") ∧
      USER_PK "" = "USER#" := by decide

/-- Claim C8, amended.  The source key encoders never fail: every input —
empty or containing the `#` delimiter — yields a key string (the encoders
are total functions into `String`), and components containing the
delimiter make distinct tuples collide, as the general collision law
`ORDER_SK a (b#c) = ORDER_SK (a#b) c` shows; an `InvalidIdentifier`
rejection exists only in the spec's proposed KeyCodec, not in the code. -/
theorem c8_thm :
    (∀ a b c : String, ORDER_SK a (b ++ "#" ++ c) = ORDER_SK (a ++ "#" ++ b) c) ∧
      ∀ u : String, USER_PK u ≠ "" := by
  constructor
  · intro a b c
    apply string_data_inj
    simp [ORDER_SK, String.data_append]
  · intro u h
    have hd := congrArg String.data h
    simp [USER_PK, String.data_append] at hd

/-- Claim C9, counterexample.  The claim states that every key generated
in a multi-tenant context — secondary-index keys included — carries the
tenant id as the leading token of the partition key.  The shared-table
script `section4_gsi_status_global.py` (line 19) queries the secondary
index with partition key `STATUS#PENDING`, which carries no tenant at
all. -/
theorem c9_cex : leadingTenant gsi2GlobalStatusPK = none := by decide

/-- Claim C9, amended.  The primary keys, sharded keys and tenant-scoped
status-index keys of the section-4 multi-tenant scripts all carry
`TENANT#<tenant id>` as the leading tokens of the partition key, for every
delimiter-free tenant id; the exception is the global status index of
`section4_gsi_status_global.py`, whose partition key `STATUS#PENDING`
deliberately carries no tenant. -/
theorem c9_thm (tenant : String) (ht : '#' ∉ tenant.data) :
    (∀ uid : String, leadingTenant (introPK tenant uid) = some tenant) ∧
      (∀ s : String, leadingTenant (s4ShardPK tenant s) = some tenant) ∧
      (∀ status : String, leadingTenant (gsi1StatusPK tenant status) = some tenant) ∧
      leadingTenant gsi2GlobalStatusPK = none := by
  refine ⟨fun uid => ?_, fun s => ?_, fun status => ?_, by decide⟩
  · have h : introPK tenant uid = "TENANT#" ++ tenant ++ "#" ++ ("USER#" ++ uid) :=
      string_data_inj (by simp [introPK, String.data_append])
    rw [h, leadingTenant_build _ _ ht]
  · have h : s4ShardPK tenant s = "TENANT#" ++ tenant ++ "#" ++ ("USER#hot#" ++ s) :=
      string_data_inj (by simp [s4ShardPK, String.data_append])
    rw [h, leadingTenant_build _ _ ht]
  · have h : gsi1StatusPK tenant status = "TENANT#" ++ tenant ++ "#" ++ ("STATUS#" ++ status) :=
      string_data_inj (by simp [gsi1StatusPK, String.data_append])
    rw [h, leadingTenant_build _ _ ht]

/-- Claim C9, witness for the amended theorem at tenant `t-037`. -/
theorem c9_wit :
    ('#' ∉ ("t-037" : String).data) ∧
      leadingTenant (introPK "t-037" "u1") = some "t-037" :=
  ⟨by decide, (c9_thm "t-037" (by decide)).1 "u1"⟩

/-- A storage client with no server-side tenant isolation: every `get_item`
succeeds and returns an item under the requested key. -/
def permissiveClient : String × String → Except ClientErr (Option Item) :=
  fun k => .ok (some ⟨k.1, k.2, [("type", "USER"), ("email", "u1@example.org")]⟩)

/-- Claim C1, counterexample.  The claim states that a guard rejects any
request whose tenant differs from the caller's authenticated tenant
locally, with `CrossTenantAccessDenied`, before any storage call is
issued.  The source (`section4_cross_tenant_attempt.py`) has no such
guard: the script issues the `get_item` for tenant `t-999` to the storage
service unconditionally — the issued-call trace is nonempty — and when the
storage service permits the read, the foreign tenant's item is returned
and printed; the only rejection the script can observe is the remote
`ClientError`, not a local one. -/
theorem c1_cex :
    (crossTenantAttempt permissiveClient).2 = [crossTenantKey] ∧
      leadingTenant crossTenantKey.1 = some OTHER_TENANT ∧
      OTHER_TENANT ≠ AUTH_TENANT ∧
      (crossTenantAttempt permissiveClient).1
        = AttemptOutcome.securityIssue
            (some ⟨crossTenantKey.1, crossTenantKey.2,
              [("type", "USER"), ("email", "u1@example.org")]⟩) := by
  refine ⟨rfl, by decide, by decide, rfl⟩

/-- Claim C1, amended.  The repository performs no client-side tenant
check: for every storage client, the cross-tenant read of
`section4_cross_tenant_attempt.py` is issued to the storage service (the
call trace is exactly the foreign-tenant `get_item`), and the outcome is
decided entirely by the storage service's answer — a denial is reported
exactly when the service raises a `ClientError`, and a permitted read
returns the foreign item.  Any `CrossTenantAccessDenied`-style local guard
exists only in the spec's proposed `TenantBoundaryGuard`. -/
theorem c1_thm (client : String × String → Except ClientErr (Option Item)) :
    (crossTenantAttempt client).2 = [crossTenantKey] ∧
      (∀ e : ClientErr, client crossTenantKey = .error e →
        (crossTenantAttempt client).1 = AttemptOutcome.securityWorking e.code) ∧
      (∀ it : Option Item, client crossTenantKey = .ok it →
        (crossTenantAttempt client).1 = AttemptOutcome.securityIssue it) := by
  refine ⟨?_, fun e he => ?_, fun it hit => ?_⟩
  · unfold crossTenantAttempt
    cases client crossTenantKey <;> rfl
  · unfold crossTenantAttempt
    rw [he]
  · unfold crossTenantAttempt
    rw [hit]

/-- Claim C1, witness for the amended theorem at the permissive client. -/
theorem c1_wit :
    permissiveClient crossTenantKey
        = .ok (some ⟨crossTenantKey.1, crossTenantKey.2,
            [("type", "USER"), ("email", "u1@example.org")]⟩) ∧
      (crossTenantAttempt permissiveClient).1
        = AttemptOutcome.securityIssue
            (some ⟨crossTenantKey.1, crossTenantKey.2,
              [("type", "USER"), ("email", "u1@example.org")]⟩) :=
  ⟨rfl, (c1_thm permissiveClient).2.2 _ rfl⟩

/-- Claim C6.  For every tenant and logical id, enumerating the shard
partition keys for the fan-out read (`[PK(s) for s in SHARDS]`, in both
`section4_tenant_sharding.py` and `section3_sharding.py`) yields exactly
`shardCount = SHARDS.length = 4` pairwise-distinct partition keys, and
this enumeration contains every partition key the write-phase shard
assignment (`random.choice`) can produce for that logical id, whatever the
RNG draw — every written item lies in a partition the fan-out read
visits. -/
theorem c6_thm :
    ∀ tenant lid : String,
      ((enumerateShardKeysS4 tenant).length = SHARDS.length ∧
        (enumerateShardKeysS4 tenant).Nodup ∧
        ∀ r : Nat, s4ShardPK tenant (randomShardChoice r) ∈ enumerateShardKeysS4 tenant) ∧
      ((enumerateShardKeysS3 lid).length = SHARDS.length ∧
        (enumerateShardKeysS3 lid).Nodup ∧
        ∀ r : Nat, s3ShardPK lid (randomShardChoice r) ∈ enumerateShardKeysS3 lid) := by
  intro tenant lid
  refine ⟨⟨by simp [enumerateShardKeysS4], ?_, fun r =>
      List.mem_map_of_mem _ (randomShardChoice_mem r)⟩,
    ⟨by simp [enumerateShardKeysS3], ?_, fun r =>
      List.mem_map_of_mem _ (randomShardChoice_mem r)⟩⟩
  · exact List.Nodup.map_on
      (fun x _ y _ h => s4ShardPK_inj tenant h) (by decide : SHARDS.Nodup)
  · exact List.Nodup.map_on
      (fun x _ y _ h => s3ShardPK_inj lid h) (by decide : SHARDS.Nodup)

/-- The item shard `s` answers with in the simulated fan-out scenario. -/
def downItem (s : String) : Item :=
  ⟨s4ShardPK "t-037" s, eventSK 0 0, [("type", "EVENT")]⟩

/-- A simulated storage client for the fan-out read: shards S0-S2 answer
with one event each, shard S3 fails with a throttling error. -/
def oneShardDown : String → Except QueryErr (List Item) := fun s =>
  if s = "S3" then .error .throttling
  else .ok [downItem s]

/-- Claim C7, counterexample.  The claim states that with a
`returnPartial` policy, a fan-out read in which 1 of 4 partition reads
fails with a throttling error returns the 3 successful partitions' merged
items plus a record of the failed partition.  The scripts' fan-out loop
has no failure handling at all: with a client that fails only shard `S3`
by throttling (and returns an item for each other shard), the whole read
aborts with the throttling error — no items and no failed-partition
record are returned. -/
theorem c7_cex :
    fanoutReadFallible oneShardDown SHARDS = .error QueryErr.throttling := rfl

/-- Claim C7, amended.  The fan-out read loop of the scripts has no
partial-failure policy: when all four shard reads succeed it returns the
concatenation of the four result lists, and when the `S3` read fails
(after `S0`-`S2` succeed) the first raised error aborts the whole read,
discarding the successful shards' items and reporting no failed-partition
record; a `returnPartial` policy exists only in the spec's proposed
`FanoutQueryExecutor`. -/
theorem c7_thm (client : String → Except QueryErr (List Item))
    (l0 l1 l2 l3 : List Item) (e : QueryErr)
    (h0 : client "S0" = .ok l0) (h1 : client "S1" = .ok l1)
    (h2 : client "S2" = .ok l2) :
    (client "S3" = .ok l3 →
        fanoutReadFallible client SHARDS = .ok (l0 ++ l1 ++ l2 ++ l3)) ∧
      (client "S3" = .error e → fanoutReadFallible client SHARDS = .error e) := by
  constructor <;> intro h3 <;>
    simp [fanoutReadFallible, SHARDS, h0, h1, h2, h3]

/-- Claim C7, witness for the amended theorem at the simulated client that
fails exactly shard `S3` with throttling. -/
theorem c7_wit :
    oneShardDown "S0" = .ok [downItem "S0"] ∧
      oneShardDown "S3" = .error QueryErr.throttling ∧
      fanoutReadFallible oneShardDown SHARDS = .error QueryErr.throttling :=
  ⟨rfl, rfl,
    (c7_thm oneShardDown [downItem "S0"] [downItem "S1"] [downItem "S2"] []
      QueryErr.throttling rfl rfl rfl).2 rfl⟩

theorem splitHash_encodePK (t et id : String) (ht : '#' ∉ t.data)
    (het : '#' ∉ et.data) (hid : '#' ∉ id.data) :
    splitHash (encodePrimaryKeyPK t et id).data
      = ["TENANT".data, t.data, et.data, id.data] := by
  have hd : (encodePrimaryKeyPK t et id).data
      = "TENANT".data ++ '#' :: (t.data ++ '#' :: (et.data ++ '#' :: id.data)) := by
    simp [encodePrimaryKeyPK, String.data_append]
  rw [hd, splitHash_delim _ _ (by decide), splitHash_delim _ _ ht,
    splitHash_delim _ _ het, splitHash_noDelim _ hid]

theorem decode_encode (t et id : String) (h1 : validComponent t)
    (h2 : validComponent et) (h3 : validComponent id) :
    decodePrimaryKey (encodePrimaryKey t et id).1 = some (t, et, id) := by
  show decodePrimaryKey (encodePrimaryKeyPK t et id) = some (t, et, id)
  unfold decodePrimaryKey
  rw [splitHash_encodePK t et id h1.2 h2.2 h3.2]
  simp [string_mk_data]

/-- Claim C4.  For all valid component inputs (nonempty, delimiter-free),
decoding the encoded primary key recovers the original
(tenant, entityType, entityId) triple exactly, and the encoding is
injective on valid inputs: two valid triples that encode to the same
(partitionKey, sortKey) composite key are equal, so no two distinct
logical entities share a key pair.  (The decoder is modelled from the
spec, section 4.1 — `src/` contains only the encoders.) -/
theorem c4_thm (t et id t' et' id' : String)
    (h1 : validComponent t) (h2 : validComponent et) (h3 : validComponent id)
    (h1' : validComponent t') (h2' : validComponent et') (h3' : validComponent id') :
    decodePrimaryKey (encodePrimaryKey t et id).1 = some (t, et, id) ∧
      (encodePrimaryKey t et id = encodePrimaryKey t' et' id' →
        t = t' ∧ et = et' ∧ id = id') := by
  refine ⟨decode_encode t et id h1 h2 h3, fun h => ?_⟩
  have hpk : (encodePrimaryKey t et id).1 = (encodePrimaryKey t' et' id').1 :=
    congrArg Prod.fst h
  have e1 := decode_encode t et id h1 h2 h3
  have e2 := decode_encode t' et' id' h1' h2' h3'
  rw [hpk, e2] at e1
  have e3 := (Option.some.inj e1).symm
  exact ⟨congrArg (fun p => p.1) e3, congrArg (fun p => p.2.1) e3,
    congrArg (fun p => p.2.2) e3⟩

/-- Claim C4, witness at the workshop's own triple (t-037, USER, u1). -/
theorem c4_wit :
    validComponent "t-037" ∧ validComponent "USER" ∧ validComponent "u1" ∧
      decodePrimaryKey (encodePrimaryKey "t-037" "USER" "u1").1
        = some ("t-037", "USER", "u1") :=
  ⟨by decide, by decide, by decide,
    (c4_thm "t-037" "USER" "u1" "t-037" "USER" "u1" (by decide) (by decide)
      (by decide) (by decide) (by decide) (by decide)).1⟩

/-- Events with globally distinct sort keys sitting in two different shard
partitions, each partition's result trivially sorted descending. -/
def cexEventA : Item := ⟨s4ShardPK "t-037" "S0", "EVENT#0000000005#000005", []⟩

/-- Second event for the merge counterexample, with the later sort key. -/
def cexEventB : Item := ⟨s4ShardPK "t-037" "S1", "EVENT#0000000007#000007", []⟩

/-- Claim C3, counterexample.  The claim states that for every fan-out
read whose per-partition results are each sorted descending, the sequence
returned to the caller is a single descending-sorted sequence of the union
of all items.  The fan-out read of `section4_tenant_sharding.py` only
concatenates the per-shard results in shard order (`items.extend`), with
no global re-sort: with shard S0 holding the older event and shard S1 the
newer one, each partition result is (trivially) sorted descending, yet
the returned sequence is ascending — not descending-sorted. -/
theorem c3_cex :
    List.Sorted skGE [cexEventA] ∧ List.Sorted skGE [cexEventB] ∧
      ¬ List.Sorted skGE (mergeS4 [[cexEventA], [cexEventB]]) := by decide

theorem sorted_strict_of_nodup_keys (l : List Item) (hs : List.Pairwise skGE l)
    (hn : (l.map Item.sk).Nodup) : List.Pairwise skGT l := by
  have hne : l.Pairwise (fun a b => a.sk ≠ b.sk) := List.pairwise_map.mp hn
  refine (hs.and hne).imp ?_
  intro a b hab
  exact lt_of_le_of_ne hab.1 fun hd => hab.2 (string_data_inj hd).symm

/-- Claim C3, amended.  The merge of `section3_sharding.py` (concatenate,
then re-sort descending by sort key) always returns a descending-sorted
permutation of the union of all partitions' items; permuting the order in
which the per-partition results arrive permutes nothing but the tie order
— the merged result is a permutation of the same items, and when all sort
keys are pairwise distinct it is exactly the same sequence, independent of
partition completion order.  The fan-out read of
`section4_tenant_sharding.py`, by contrast, returns the plain
concatenation in shard order, which the counterexample shows is not
descending-sorted. -/
theorem c3_thm :
    (∀ parts : List (List Item),
        List.Sorted skGE (mergeS3 parts) ∧ (mergeS3 parts).Perm parts.flatten) ∧
      (∀ p1 p2 : List (List Item), p1.Perm p2 → (mergeS3 p1).Perm (mergeS3 p2)) ∧
      (∀ p1 p2 : List (List Item), p1.Perm p2 →
        (p1.flatten.map Item.sk).Nodup → mergeS3 p1 = mergeS3 p2) := by
  have base : ∀ parts : List (List Item),
      List.Sorted skGE (mergeS3 parts) ∧ (mergeS3 parts).Perm parts.flatten :=
    fun parts => ⟨List.sorted_insertionSort skGE parts.flatten,
      List.perm_insertionSort skGE parts.flatten⟩
  have permed : ∀ p1 p2 : List (List Item), p1.Perm p2 →
      (mergeS3 p1).Perm (mergeS3 p2) := fun p1 p2 h =>
    ((base p1).2.trans h.flatten).trans (base p2).2.symm
  refine ⟨base, permed, fun p1 p2 h hn => ?_⟩
  have hperm := permed p1 p2 h
  have hn1 : ((mergeS3 p1).map Item.sk).Nodup :=
    ((base p1).2.map Item.sk).nodup_iff.mpr hn
  have hn2 : ((mergeS3 p2).map Item.sk).Nodup :=
    (hperm.map Item.sk).nodup_iff.mp hn1
  exact List.eq_of_perm_of_sorted hperm
    (sorted_strict_of_nodup_keys _ (base p1).1 hn1)
    (sorted_strict_of_nodup_keys _ (base p2).1 hn2)

/-- Claim C3, witness: the two singleton partitions delivered in either
completion order merge to the identical sequence. -/
theorem c3_wit :
    (([[cexEventB], [cexEventA]] : List (List Item)).Perm [[cexEventA], [cexEventB]]) ∧
      (([[cexEventB], [cexEventA]] : List (List Item)).flatten.map Item.sk).Nodup ∧
      mergeS3 [[cexEventB], [cexEventA]] = mergeS3 [[cexEventA], [cexEventB]] :=
  ⟨by decide, by decide,
    c3_thm.2.2 [[cexEventB], [cexEventA]] [[cexEventA], [cexEventB]]
      (by decide) (by decide)⟩

theorem length_rangeQueryDesc (table : List Item) (pk : String) (lim : Nat) :
    (rangeQueryDesc table pk lim).length
      = min lim (table.countP fun it => decide (it.pk = pk)) := by
  unfold rangeQueryDesc sortDesc
  rw [List.length_take, (List.perm_insertionSort skGE _).length_eq,
    List.countP_eq_length_filter]

theorem countPK_writeEvents (draw : Nat → Nat) (s : String) :
    ((writeEventsS3 draw).countP fun it => decide (it.pk = s3ShardPK USER_ID s))
      = writtenCount draw s := by
  unfold writeEventsS3 writtenCount
  rw [List.countP_map]
  apply List.countP_congr
  intro n _
  simp only [Function.comp, decide_eq_true_eq]
  exact ⟨fun h => s3ShardPK_inj USER_ID h, fun h => by rw [h]⟩

theorem shardReadLen (draw : Nat → Nat) (s : String) :
    (rangeQueryDesc (writeEventsS3 draw) (s3ShardPK USER_ID s) 50).length
      = min (writtenCount draw s) 50 := by
  rw [length_rangeQueryDesc, countPK_writeEvents, Nat.min_comm]

theorem fanoutLenS3 (draw : Nat → Nat) :
    (fanoutReadS3 (writeEventsS3 draw)).length
      = (SHARDS.map fun s => min (writtenCount draw s) 50).sum := by
  unfold fanoutReadS3
  rw [List.length_flatten, List.map_map]
  congr 1
  apply List.map_congr_left
  intro s _
  simp only [Function.comp]
  exact shardReadLen draw s

set_option maxRecDepth 8000 in
/-- Claim C10.  In the sharded fan-out example (120 events distributed
over 4 shards, per-shard descending read with `Limit=50`), for every
sequence of RNG draws the number of items the fan-out read returns equals
the sum over the shards of min(items written to that shard, 50), while 120
items are always written; consequently an assignment that overloads one
shard (here: every draw selecting shard S0, putting all 120 events there,
more than 50) makes the fan-out read return only 50 items — fewer than the
120 written, the descending `Limit=50` read silently dropping that shard's
lowest-sort-key events. -/
theorem c10_thm :
    (∀ draw : Nat → Nat, (writeEventsS3 draw).length = 120 ∧
        (fanoutReadS3 (writeEventsS3 draw)).length
          = (SHARDS.map fun s => min (writtenCount draw s) 50).sum) ∧
      50 < writtenCount (fun _ => 0) "S0" ∧
      (fanoutReadS3 (writeEventsS3 fun _ => 0)).length = 50 ∧
      (fanoutReadS3 (writeEventsS3 fun _ => 0)).length
        < (writeEventsS3 fun _ => 0).length := by
  have hlen : ∀ draw : Nat → Nat, (writeEventsS3 draw).length = 120 := by
    intro draw
    unfold writeEventsS3
    rw [List.length_map, List.length_range]
  have hsum : ((SHARDS.map fun s => min (writtenCount (fun _ => 0) s) 50).sum) = 50 := by
    decide
  refine ⟨fun draw => ⟨hlen draw, fanoutLenS3 draw⟩, by decide, ?_, ?_⟩
  · rw [fanoutLenS3, hsum]
  · rw [fanoutLenS3, hsum, hlen]
    decide

end Workshop
